import Mathlib

/-!
# Sentiment pipeline of the crypto analyzer: a shallow embedding

Embedded sources:

* `src/crypto_analyzer/index.js`: `getPrediction`, `performSentimentAnalysis`,
  `fetchServiceData`, the `getServiceManager` table and the entry point;
* `src/services/social/twitter.js`: `getTweets`;
* `src/index.js`: `fetchPublicData`, its `getServiceManager` table and entry point.

JavaScript values are modelled by `JsVal`, numbers by `JsNum`: the finite values
are rationals, next to `NaN` and the two infinities. Comparisons are exact, as they
are on binary64 numbers; `+` and `/` return the exact result rounded to the nearest
binary64 number, ties to even, and an infinity on overflow (`JsNum.round`). The
sign of a zero is not modelled: `-0` and `+0`, which compare equal, are one value.
Asynchronous functions are modelled by `Run`: the ordered list of calls made to
external collaborators together with either the value the promise resolves to or
the error it rejects with.  `console.log` output is not recorded; `console.error`
is.
-/

set_option autoImplicit false
set_option maxRecDepth 100000

/-! ## JavaScript numbers -/

/-- A JavaScript number: `NaN`, `-Infinity`, `+Infinity`, or a finite value. -/
inductive JsNum where
  | nan
  | negInf
  | posInf
  | fin (q : ℚ)
  deriving DecidableEq

/-- The number of multiples of `2^-1074`, the smallest positive binary64 number,
that make up one. -/
def unitsPerOne : Nat := 2 ^ 1074

/-- The first magnitude, `2^1024` counted in multiples of `2^-1074`, that is too
large for a finite binary64 number. -/
def overflowUnits : Nat := 2 ^ 2098

/-- The integer nearest to `n / m`, the even one of two equally near. -/
def roundHalfEven (n m : Nat) : Nat :=
  let r := n / m
  let rem := n % m
  if 2 * rem < m then r
  else if m < 2 * rem then r + 1
  else if r % 2 = 0 then r else r + 1

/-- The least `s` from the start value on, at most `fuel` steps further, with
`f / 2^s < 2^53`: the number of low bits a 53-bit significand cannot hold. -/
def shiftFor : Nat → Nat → Nat → Nat
  | 0, _, s => s
  | fuel + 1, f, s => if f / 2 ^ s < 2 ^ 53 then s else shiftFor fuel f (s + 1)

namespace JsNum

/-- The binary64 number nearest to the rational `q`, ties to even: the value of a
numeric literal and of an arithmetic result. Magnitudes are counted in multiples
of `2^-1074`; below `2^53` such multiples every integer count is representable,
above, the count is rounded to 53 significant bits; a result of `2^1024` or more
is an infinity. -/
def round (q : ℚ) : JsNum :=
  let n : Nat := q.num.natAbs * unitsPerOne
  let d : Nat := q.den
  let f : Nat := n / d
  if overflowUnits ≤ f then (if q.num < 0 then negInf else posInf)
  else
    let shift : Nat := shiftFor 2045 f 0
    let units : Nat := roundHalfEven n (d * 2 ^ shift) * 2 ^ shift
    if overflowUnits ≤ units then (if q.num < 0 then negInf else posInf)
    else fin (mkRat (if q.num < 0 then -(units : Int) else (units : Int)) unitsPerOne)

/-- JavaScript `a < b`: false as soon as one side is `NaN`. -/
def lt : JsNum → JsNum → Bool
  | fin a, fin b => decide (a < b)
  | negInf, fin _ => true
  | negInf, posInf => true
  | fin _, posInf => true
  | _, _ => false

/-- JavaScript `a <= b`: false as soon as one side is `NaN`. -/
def le : JsNum → JsNum → Bool
  | fin a, fin b => decide (a ≤ b)
  | negInf, fin _ => true
  | negInf, posInf => true
  | negInf, negInf => true
  | fin _, posInf => true
  | posInf, posInf => true
  | _, _ => false

/-- JavaScript `a >= b`. -/
def ge (a b : JsNum) : Bool := le b a

/-- JavaScript `a + b` on numbers: the exact sum, rounded. -/
def add : JsNum → JsNum → JsNum
  | nan, _ => nan
  | _, nan => nan
  | posInf, negInf => nan
  | negInf, posInf => nan
  | posInf, _ => posInf
  | _, posInf => posInf
  | negInf, _ => negInf
  | _, negInf => negInf
  | fin a, fin b => round (a + b)

/-- JavaScript `a / b` on numbers: the exact quotient, rounded (zero is taken as
`+0`; `0/0` is `NaN`). -/
def div : JsNum → JsNum → JsNum
  | nan, _ => nan
  | _, nan => nan
  | posInf, posInf => nan
  | posInf, negInf => nan
  | negInf, posInf => nan
  | negInf, negInf => nan
  | posInf, fin b => if b < 0 then negInf else posInf
  | negInf, fin b => if b < 0 then posInf else negInf
  | fin _, posInf => fin 0
  | fin _, negInf => fin 0
  | fin a, fin b =>
    if b = 0 then (if a = 0 then nan else if a < 0 then negInf else posInf)
    else round (a / b)

/-- The number denoting an array length (lengths are below `2^32`, hence exact). -/
def ofNat (n : Nat) : JsNum := fin n

end JsNum

/-! ## JavaScript values and objects -/

/-- JSON-like JavaScript values. An object is its list of own enumerable
properties in insertion order. -/
inductive JsVal where
  | undefined
  | null
  | bool (b : Bool)
  | num (n : JsNum)
  | str (s : String)
  | arr (items : List JsVal)
  | obj (fields : List (String × JsVal))

/-- The own enumerable properties of an object, in insertion order. -/
abbrev JsObj := List (String × JsVal)

namespace JsObj

/-- Property read `o.k` (own properties only): `undefined` when absent. -/
def get (o : JsObj) (k : String) : JsVal :=
  match o.lookup k with
  | some v => v
  | none => .undefined

/-- Property write `o.k = v` as performed while an object literal is built:
an existing key keeps its position and takes the new value. -/
def set : JsObj → String → JsVal → JsObj
  | [], k, v => [(k, v)]
  | (k', v') :: rest, k, v =>
    if k' = k then (k, v) :: rest else (k', v') :: set rest k v

/-- Spread `{ ...o, ...src }`: copy every own property of `src` onto `o`. -/
def spread (o src : JsObj) : JsObj :=
  src.foldl (fun acc kv => acc.set kv.1 kv.2) o

/-- Rest pattern `{ k, ...rest } = o`: the own properties other than `k`. -/
def rest (o : JsObj) (k : String) : JsObj :=
  o.filter (fun kv => kv.1 != k)

/-- Whether `k` is an own property of `o`. -/
def has (o : JsObj) (k : String) : Bool :=
  o.any (fun kv => kv.1 == k)

end JsObj

namespace JsVal

/-- Property read `v.k` on an arbitrary value, for a key that no prototype
defines: a `TypeError` on `undefined`/`null`, the own property on an object,
`undefined` otherwise. -/
def getProp (v : JsVal) (k : String) : Except String JsVal :=
  match v with
  | .undefined => .error "Cannot read properties of undefined"
  | .null => .error "Cannot read properties of null"
  | .obj o => .ok (JsObj.get o k)
  | _ => .ok .undefined

end JsVal

/-! ## Errors, collaborator calls and asynchronous runs -/

/-- A thrown value. -/
inductive JsErr where
  /-- Thrown by `new Error(message)`. -/
  | error (message : String)
  /-- Thrown by the language itself. -/
  | typeError (message : String)
  /-- Thrown or rejected by an external collaborator. -/
  | external (reason : String)

/-- Calls that leave the process, in the order they are made. -/
inductive Event where
  /-- The request `this.client.get('tweets/search/recent', ...)` with its `query` and `max_results`. -/
  | clientGet (query : String) (maxResults : Nat)
  /-- The model load `new SentimentPredictor().init(HOSTED_URLS)`. -/
  | setupSentiment
  /-- The scoring call `predictor.predict(text)`. -/
  | predict (text : JsVal)
  /-- The price lookup `getCryptoPrice(coin)`. -/
  | getCryptoPrice (coin : JsVal)
  /-- The persistence call `dbManager.insertNewBatch(batch)`. -/
  | insertNewBatch (batch : JsVal)
  /-- The catalog read `readFile(new URL('./keywords.json', ...))`. -/
  | readKeywords
  /-- The report `console.error(label, err)` of a caught error. -/
  | consoleError (label : String) (err : JsErr)
  /-- The report `console.error(label, value)` of a plain value. -/
  | consoleErrorValue (label : String) (value : JsVal)
  /-- A promise nobody awaits was rejected. -/
  | unhandledRejection (err : JsErr)

/-- The run of an async function: the calls made, then the resolution. -/
structure Run (α : Type) where
  trace : List Event
  outcome : Except JsErr α

namespace Run

variable {α β : Type}

/-- Resolve with a value. -/
def ret (a : α) : Run α := ⟨[], .ok a⟩

/-- Sequencing: a rejection stops the run. -/
def andThen (x : Run α) (f : α → Run β) : Run β :=
  match x.outcome with
  | .error e => ⟨x.trace, .error e⟩
  | .ok a => ⟨x.trace ++ (f a).trace, (f a).outcome⟩

/-- Record the call `e`. -/
def emit (e : Event) : Run Unit := ⟨[e], .ok ()⟩

/-- The statement `throw err`. -/
def throw (err : JsErr) : Run α := ⟨[], .error err⟩

/-- Call (and await) an external collaborator whose answer is `r`. -/
def call (e : Event) (r : Except JsErr α) : Run α := ⟨[e], r⟩

/-- The statement `try { body } catch (err) { handler err }`. -/
def tryCatch (body : Run α) (handler : JsErr → Run α) : Run α :=
  match body.outcome with
  | .ok a => ⟨body.trace, .ok a⟩
  | .error e => ⟨body.trace ++ (handler e).trace, (handler e).outcome⟩

/-- Call an async function without awaiting it: a rejection is unhandled. -/
def spawn (x : Run α) : Run Unit :=
  match x.outcome with
  | .ok _ => ⟨x.trace, .ok ()⟩
  | .error e => ⟨x.trace ++ [.unhandledRejection e], .ok ()⟩

/-- Lift a language-level property read. -/
def ofGet (r : Except String JsVal) : Run JsVal :=
  match r with
  | .ok v => ret v
  | .error m => throw (.typeError m)

/-- The loop `xs.map(f)`, stopping at the first exception. -/
def mapArr (f : α → Run β) : List α → Run (List β)
  | [] => ret []
  | x :: xs => andThen (f x) (fun y => andThen (mapArr f xs) (fun ys => ret (y :: ys)))

end Run

/-! ## Data exchanged with the collaborators -/

/-- An entry of `keywords.json`. -/
structure TrackedCrypto where
  name : String
  acronym : String

/-- The entry as the JavaScript object it is. -/
def TrackedCrypto.toJs (c : TrackedCrypto) : JsVal :=
  .obj [("name", .str c.name), ("acronym", .str c.acronym)]

/-- What `predictor.predict(text)` returns: an object with a numeric `score`. -/
structure Analysis where
  score : JsNum
  label : Option String

/-- The analysis as the JavaScript object it is. -/
def Analysis.toJs (a : Analysis) : JsVal :=
  match a.label with
  | some l => .obj [("score", .num a.score), ("label", .str l)]
  | none => .obj [("score", .num a.score)]

/-- The object `setupSentiment()` resolves to. -/
structure Predictor where
  predict : JsVal → Except JsErr Analysis

/-- The collaborators imported by the two entry points. -/
structure Services where
  /-- Outcome of `new SentimentPredictor().init(HOSTED_URLS)`. -/
  init : Except JsErr Predictor
  /-- Outcome of `getCryptoPrice(coin)`. -/
  getCryptoPrice : JsVal → Except JsErr JsVal
  /-- Value of `DateTime.now().toISO()`. -/
  now : String
  /-- Outcome of `dbManager.insertNewBatch(batch)`: the `insertedCount`. -/
  insertNewBatch : JsVal → Except JsErr Nat
  /-- Outcome of reading and parsing `keywords.json`. -/
  readKeywords : Except JsErr (List TrackedCrypto)

/-- The names exported by `helpers/constants.js`. -/
structure Constants where
  TWITTER : String
  REDDIT : String
  BING : String
  GNEWS : String

/-- An element of `analyzedResults`: the literal
`{ ...batch, rawSource: result.text, analysis: predictor.predict(result.text) }`. -/
structure AnalyzedDocument where
  carried : JsObj
  rawSource : JsVal
  analysis : Analysis

/-- The analyzed document as the JavaScript object it is. -/
def AnalyzedDocument.toJs (d : AnalyzedDocument) : JsVal :=
  .obj (((JsObj.spread [] d.carried).set "rawSource" d.rawSource).set "analysis" d.analysis.toJs)

/-- The value a function hands on: `undefined` when it returned nothing. -/
def optToJs : Option JsObj → JsVal
  | some o => .obj o
  | none => .undefined

/-! ## `src/services/social/twitter.js` -/

/-- The body of a `tweets/search/recent` response: each field may be absent;
`data` and `errors` are arrays when present. -/
structure TwitterResponse where
  data : Option (List JsVal)
  meta : Option JsObj
  errors : Option (List JsVal)

/-- The object built by `new TwitterManager()`: it holds `this.client`. -/
structure TwitterManager where
  get : String → Nat → Except JsErr TwitterResponse

/-- Embedding of `getTweets({ crypto, limit = 100 })`. A present `errors` array is
truthy whatever its length. -/
def getTweets (self : TwitterManager) (consts : Constants)
    (crypto : Option TrackedCrypto) (limit : Option Nat) : Run (Option JsObj) :=
  match crypto with
  | none => Run.throw (.typeError "Cannot read properties of undefined (reading 'name')")
  | some crypto =>
    let limit := limit.getD 100
    let query := crypto.acronym
    Run.andThen (Run.call (.clientGet query limit) (self.get query limit)) fun response =>
      let tweets := response.data.getD []
      match response.errors with
      | some errors =>
        Run.andThen (Run.emit (.consoleErrorValue "Errors:" (.arr errors))) fun _ =>
          Run.ret none
      | none =>
        Run.ret (some
          [ ("source", .str consts.TWITTER),
            ("results", .arr tweets),
            ("meta", .obj ((JsObj.spread [] (response.meta.getD [])).set "query" (.str query))) ])

/-! ## Service managers -/

/-- A manager object: the adapter methods it defines. The resolved value is the
`batch` field of the returned object, or `none` when the method returns
`undefined`. -/
structure ServiceManager where
  fetchServiceData : Option (Option TrackedCrypto → Run (Option JsObj))
  fetchPublicData : Option (String → Run (Option JsObj))

/-- The manager exported by `twitter.js`: only
`TwitterManager.prototype.fetchServiceData = getTweets` is defined. -/
def TwitterManager.toServiceManager (self : TwitterManager) (consts : Constants) :
    ServiceManager where
  fetchServiceData := some (fun crypto => getTweets self consts crypto none)
  fetchPublicData := none

/-- The managers destructured from `new ScrapingApi()`. -/
structure Managers where
  twitterManager : ServiceManager
  redditManager : ServiceManager
  bingManager : ServiceManager
  gnewsManager : ServiceManager

/-- The result of the property read `getServiceManager[key]`. -/
inductive Looked where
  /-- No own and no inherited property. -/
  | undefined
  /-- An own property of the table. -/
  | manager (m : ServiceManager)
  /-- A member inherited from `Object.prototype`. -/
  | inherited (key : String)

/-- The property names every object literal inherits from `Object.prototype`. -/
def objectPrototypeKeys : List String :=
  [ "constructor", "__proto__", "hasOwnProperty", "isPrototypeOf",
    "propertyIsEnumerable", "toLocaleString", "toString", "valueOf",
    "__defineGetter__", "__defineSetter__", "__lookupGetter__", "__lookupSetter__" ]

/-- The property read `table[key]` on an object literal whose computed keys are
listed in source order (a later duplicate key overrides an earlier one). -/
def lookupManager (table : List (String × ServiceManager)) (key : String) : Looked :=
  match table.reverse.lookup key with
  | some m => .manager m
  | none => if key ∈ objectPrototypeKeys then .inherited key else .undefined

/-- The property key a selector is converted to: `undefined` reads the key
"undefined". -/
def selectorKey (service : Option String) : String :=
  service.getD "undefined"

/-- The element `keywords[index]`: `undefined` unless the index is an integer
within the array. -/
def keywordAt (keywords : List TrackedCrypto) (index : JsNum) : Option TrackedCrypto :=
  match index with
  | .fin q => if q.den = 1 ∧ 0 ≤ q.num then keywords.get? q.num.toNat else none
  | _ => none

/-! ## `src/crypto_analyzer/index.js` -/

namespace CryptoAnalyzer

/-- Embedding of `setupSentiment`: it returns the initialised predictor. The
comment above it in the source also speaks of registering the predict function with
a UI; the code registers nothing. -/
def setupSentiment (svc : Services) : Run Predictor :=
  Run.call .setupSentiment svc.init

/-- Embedding of `getPrediction`. -/
def getPrediction (score : JsNum) : String :=
  if score.lt (.fin 0.25) then "NEGATIVE"
  else if score.lt (.fin 0.75) then "NEUTRAL"
  else "POSITIVE"

/-- The callback of `results.map(...)`: one analyzed document per result. -/
def analyzeResult (predictor : Predictor) (batch : JsObj) (result : JsVal) :
    Run AnalyzedDocument :=
  Run.andThen (Run.ofGet (result.getProp "text")) fun text =>
    Run.andThen (Run.call (.predict text) (predictor.predict text)) fun analysis =>
      Run.ret { carried := batch, rawSource := text, analysis := analysis }

/-- The expression
`analyzedResults.reduce((acc, r) => acc + r.analysis.score, 0) / results.length`. -/
def averageOf (analyzedResults : List AnalyzedDocument) (length : Nat) : JsNum :=
  JsNum.div (analyzedResults.foldl (fun acc r => JsNum.add acc r.analysis.score) (JsNum.fin 0))
    (JsNum.ofNat length)

/-- The object literal assigned to `analyzedBatch`. -/
def assemble (batch : JsObj) (results : JsVal) (averageScore : JsNum) (prediction : String)
    (batchTimePrice : JsVal) (timestamp : String) : JsObj :=
  ((JsObj.spread
      [("summary", .obj
        [ ("source", batch.get "source"),
          ("coin", batch.get "coin"),
          ("averageScore", .num averageScore),
          ("prediction", .str prediction),
          ("batchTimePrice", batchTimePrice),
          ("timestamp", .str timestamp) ])]
      batch).set "state" (.str "VIRGIN")).set "results" results

/-- Embedding of `performSentimentAnalysis({ results, ...batch })`. The result is
`none` when the function returns `undefined`. -/
def performSentimentAnalysis (svc : Services) (envelope : JsObj) : Run (Option JsObj) :=
  let results := envelope.get "results"
  let batch := envelope.rest "results"
  Run.tryCatch
    (Run.andThen (setupSentiment svc) fun predictor =>
      match results with
      | .arr docs =>
        Run.andThen (Run.mapArr (analyzeResult predictor batch) docs) fun analyzedResults =>
          let averageScore := averageOf analyzedResults docs.length
          let prediction := getPrediction averageScore
          Run.andThen (Run.call (.getCryptoPrice (batch.get "coin"))
              (svc.getCryptoPrice (batch.get "coin"))) fun batchTimePrice =>
            Run.ret (some (assemble batch results averageScore prediction batchTimePrice svc.now))
      | _ => Run.throw (.typeError "results.map is not a function"))
    (fun error =>
      Run.andThen (Run.emit (.consoleError "failed predicting" error)) fun _ => Run.ret none)

/-- The call `serviceManager.fetchServiceData({ crypto })` on whatever the table
lookup produced. -/
def callFetchServiceData (serviceManager : Looked) (crypto : Option TrackedCrypto) :
    Run (Option JsObj) :=
  match serviceManager with
  | .manager m =>
    match m.fetchServiceData with
    | some f => f crypto
    | none => Run.throw (.typeError "serviceManager.fetchServiceData is not a function")
  | _ => Run.throw (.typeError "serviceManager.fetchServiceData is not a function")

/-- Embedding of `fetchServiceData(crypto, serviceManager)`. -/
def fetchServiceData (svc : Services) (crypto : Option TrackedCrypto)
    (serviceManager : Looked) : Run Unit :=
  Run.andThen (callFetchServiceData serviceManager crypto) fun fetched =>
    match fetched with
    | none => Run.throw (.typeError "Cannot destructure property 'batch' of undefined")
    | some batch =>
      Run.andThen (performSentimentAnalysis svc batch) fun analyzedBatch =>
        Run.tryCatch
          (Run.andThen (Run.call (.insertNewBatch (optToJs analyzedBatch))
              (svc.insertNewBatch (optToJs analyzedBatch))) fun _ => Run.ret ())
          (fun error => Run.emit (.consoleError "failed inserting batch" error))

/-- The table `getServiceManager`, its computed keys in source order. -/
def getServiceManager (consts : Constants) (managers : Managers) :
    List (String × ServiceManager) :=
  [ (consts.TWITTER, managers.twitterManager),
    (consts.REDDIT, managers.redditManager),
    (consts.BING, managers.bingManager),
    (consts.GNEWS, managers.gnewsManager) ]

/-- The parsed command line: `args.service` as a property key (absent when the
flag is not given) and `args['coin-index']`. -/
structure Args where
  service : Option String
  coinIndex : JsNum

/-- Embedding of the entry point, the immediately invoked async function. -/
def main (consts : Constants) (managers : Managers) (svc : Services) (args : Args) :
    Run Unit :=
  Run.tryCatch
    (Run.andThen (Run.call .readKeywords svc.readKeywords) fun keywords =>
      match lookupManager (getServiceManager consts managers) (selectorKey args.service) with
      | .undefined => Run.throw (.error "no service specified")
      | serviceManager =>
        Run.spawn (fetchServiceData svc (keywordAt keywords args.coinIndex) serviceManager))
    (fun err => Run.emit (.consoleError "" err))

end CryptoAnalyzer

/-! ## `src/index.js` -/

namespace PublicSearch

/-- The parsed command line: `args.service` as a property key and `args.query`. -/
structure Args where
  service : Option String
  query : String

/-- The call `serviceManager.fetchPublicData({ query })` on whatever the table
lookup produced. -/
def callFetchPublicData (serviceManager : Looked) (query : String) : Run (Option JsObj) :=
  match serviceManager with
  | .manager m =>
    match m.fetchPublicData with
    | some f => f query
    | none => Run.throw (.typeError "serviceManager.fetchPublicData is not a function")
  | _ => Run.throw (.typeError "serviceManager.fetchPublicData is not a function")

/-- Embedding of `fetchPublicData(serviceManager)`. -/
def fetchPublicData (svc : Services) (args : Args) (serviceManager : Looked) : Run Unit :=
  Run.andThen (Run.call .readKeywords svc.readKeywords) fun keywords =>
    let query : Run String :=
      if args.query.length ≠ 0 then Run.ret args.query
      else match keywords.head? with
        | some k => Run.ret k.name
        | none => Run.throw (.typeError "Cannot read properties of undefined (reading 'name')")
    Run.andThen query fun query =>
      Run.andThen (callFetchPublicData serviceManager query) fun fetched =>
        match fetched with
        | none => Run.throw (.typeError "Cannot destructure property 'batch' of undefined")
        | some batch =>
          Run.andThen (Run.call (.insertNewBatch (.obj batch)) (svc.insertNewBatch (.obj batch)))
            fun _ => Run.ret ()

/-- The table `getServiceManager` of this entry point: three sources. -/
def getServiceManager (consts : Constants) (managers : Managers) :
    List (String × ServiceManager) :=
  [ (consts.TWITTER, managers.twitterManager),
    (consts.REDDIT, managers.redditManager),
    (consts.BING, managers.bingManager) ]

/-- Embedding of the entry point, the immediately invoked async function. -/
def main (consts : Constants) (managers : Managers) (svc : Services) (args : Args) :
    Run Unit :=
  Run.tryCatch
    (match lookupManager (getServiceManager consts managers) (selectorKey args.service) with
      | .undefined => Run.throw (.error "no service specified")
      | serviceManager => Run.spawn (fetchPublicData svc args serviceManager))
    (fun err => Run.emit (.consoleError "" err))

end PublicSearch

/-! ## Observations used to state the properties -/

namespace CryptoAnalyzer

/-- What the `map` callback obtains for one document: the analysis of its `text`,
or `none` when reading the text or `predict` throws. -/
def scoreOf (predictor : Predictor) (doc : JsVal) : Option Analysis :=
  match doc.getProp "text" with
  | .ok text =>
    match predictor.predict text with
    | .ok a => some a
    | .error _ => none
  | .error _ => none

/-- The sum then quotient the source computes, over a list of scores: the scores
are added from the left onto `0` and the total is divided by the count, each
operation rounded as JavaScript rounds it. -/
def meanOf (scores : List JsNum) (count : Nat) : JsNum :=
  JsNum.div (scores.foldl JsNum.add (.fin 0)) (.ofNat count)

/-- Field `summary.k` of a batch. -/
def summaryField (b : JsObj) (k : String) : Except String JsVal :=
  (b.get "summary").getProp k

end CryptoAnalyzer

/-! ## Concrete collaborators and inputs -/

namespace Sample

/-- A scorer that knows three texts and throws on every other one. -/
def predict : JsVal → Except JsErr Analysis
  | .str s =>
    if s = "a" then .ok ⟨.round 0.1, none⟩
    else if s = "b" then .ok ⟨.fin 0.5, none⟩
    else if s = "c" then .ok ⟨.round 0.9, none⟩
    else .error (.external "cannot score")
  | _ => .error (.external "cannot score")

/-- The predictor built on `predict`. -/
def predictor : Predictor := ⟨predict⟩

/-- Collaborators that all answer. -/
def svc : Services where
  init := .ok predictor
  getCryptoPrice := fun _ => .ok (.num (.fin 100))
  now := "2021-05-01T12:00:00.000Z"
  insertNewBatch := fun _ => .ok 1
  readKeywords := .ok [⟨"Bitcoin", "BTC"⟩, ⟨"Ethereum", "ETH"⟩]

/-- The same collaborators with a price lookup that throws. -/
def svcPriceDown : Services where
  init := .ok predictor
  getCryptoPrice := fun _ => .error (.external "price service unavailable")
  now := "2021-05-01T12:00:00.000Z"
  insertNewBatch := fun _ => .ok 1
  readKeywords := .ok [⟨"Bitcoin", "BTC"⟩, ⟨"Ethereum", "ETH"⟩]

/-- A raw document with the given text. -/
def doc (t : String) : JsVal := .obj [("text", .str t)]

/-- An envelope of three documents scoring 0.1, 0.5 and 0.9. -/
def envelope : JsObj :=
  [("source", .str "TWITTER"), ("results", .arr [doc "a", doc "b", doc "c"]), ("meta", .obj [])]

/-- An envelope without documents. -/
def emptyEnvelope : JsObj :=
  [("source", .str "TWITTER"), ("results", .arr []), ("meta", .obj [])]

/-- An envelope of one document scoring 0.5. -/
def singleEnvelope : JsObj :=
  [("source", .str "TWITTER"), ("results", .arr [doc "b"]), ("meta", .obj [])]

/-- An envelope that already carries a `state` field. -/
def statefulEnvelope : JsObj :=
  [("source", .str "TWITTER"), ("state", .str "PROCESSED"), ("results", .arr [doc "b"])]

/-- An envelope whose second document cannot be scored. -/
def mixedEnvelope : JsObj :=
  [("source", .str "TWITTER"), ("results", .arr [doc "b", doc "unscorable"]), ("meta", .obj [])]

/-- The values of `helpers/constants.js` assumed by the examples. -/
def consts : Constants := ⟨"TWITTER", "REDDIT", "BING", "GNEWS"⟩

/-- A Twitter client answering every search with two tweets and no errors. -/
def twitter : TwitterManager :=
  ⟨fun _ _ => .ok ⟨some [doc "a", doc "c"], some [("result_count", .num (.fin 2))], none⟩⟩

/-- A Twitter client answering with tweets together with an `errors` array. -/
def twitterWithErrors : TwitterManager :=
  ⟨fun _ _ => .ok ⟨some [doc "a", doc "c"], none,
    some [.obj [("title", .str "Not Found Error")]]⟩⟩

/-- Managers whose non-Twitter adapters define no method. -/
def managers : Managers where
  twitterManager := twitter.toServiceManager consts
  redditManager := ⟨none, none⟩
  bingManager := ⟨none, none⟩
  gnewsManager := ⟨none, none⟩

/-- A tracked crypto. -/
def bitcoin : TrackedCrypto := ⟨"Bitcoin", "BTC"⟩

end Sample

/-! ## Arithmetic checks -/

namespace JsNum

/-- The literal `0.1` denotes `3602879701896397 / 2^55`. -/
theorem round_one_tenth : round 0.1 = fin (3602879701896397 / 36028797018963968) := by
  decide!

/-- Numbers a binary64 holds exactly are left alone. -/
theorem round_exact :
    round 0.25 = fin 0.25 ∧ round 0.75 = fin 0.75 ∧ round 0.5 = fin 0.5 ∧
      round 0 = fin 0 ∧ round (-1.5) = fin (-1.5) ∧ round 4294967295 = fin 4294967295 := by
  decide!

/-- The sum `0.1 + 0.2` is `0.30000000000000004`, not `0.3`. -/
theorem add_one_tenth_two_tenths :
    add (round 0.1) (round 0.2) = round 0.30000000000000004 ∧
      add (round 0.1) (round 0.2) ≠ round 0.3 := by
  decide!

/-- The quotient `1 / 3` is `6004799503160661 / 2^54`. -/
theorem div_one_three : div (fin 1) (fin 3) = fin (6004799503160661 / 18014398509481984) := by
  decide!

/-- Twice the largest finite number overflows to `Infinity`, and the tie between
the largest finite number and `2^1024` goes to `Infinity`. -/
theorem add_overflows :
    add (round 1.7976931348623157e308) (round 1.7976931348623157e308) = posInf ∧
      add (round (-1.7976931348623157e308)) (round (-1.7976931348623157e308)) = negInf ∧
      round 1.7976931348623158e308 = round 1.7976931348623157e308 ∧
      round 1.7976931348623159e308 = posInf := by
  decide!

/-- Below the smallest positive number, `5e-324`, a value rounds to it or to zero. -/
theorem round_underflows :
    round 3e-324 = round 5e-324 ∧ round 2e-324 = fin 0 ∧ round 5e-324 ≠ fin 0 ∧
      div (round 5e-324) (fin 2) = fin 0 ∧ div (round 5e-324) (fin 0) = posInf := by
  decide!

end JsNum

namespace CryptoAnalyzer

/-- The scores `0.15` and `0.35` sum to exactly `0.5` after rounding, so their
average is `0.25` and is classified 'NEUTRAL'. -/
theorem meanOf_rounded_sum :
    meanOf [JsNum.round 0.15, JsNum.round 0.35] 2 = .fin 0.25 ∧
      getPrediction (meanOf [JsNum.round 0.15, JsNum.round 0.35] 2) = "NEUTRAL" := by
  decide!

/-- The scores `0.1`, `0.2` and `0.3` average to `0.20000000000000004`. -/
theorem meanOf_rounded_quotient :
    meanOf [JsNum.round 0.1, JsNum.round 0.2, JsNum.round 0.3] 3
      = JsNum.round 0.20000000000000004 ∧
    meanOf [JsNum.round 0.1, JsNum.round 0.2, JsNum.round 0.3] 3 ≠ JsNum.round 0.2 := by
  decide!

end CryptoAnalyzer

/-! ## Object lemmas -/

namespace JsObj

theorem lookup_set_self (o : JsObj) (k : String) (v : JsVal) :
    (set o k v).lookup k = some v := by
  induction o with
  | nil => simp [set, List.lookup]
  | cons kv rest ih =>
    obtain ⟨k', v'⟩ := kv
    by_cases h : k' = k
    · simp [set, h, List.lookup]
    · have h' : (k == k') = false := by simpa using fun e => h e.symm
      simp [set, h, List.lookup, h', ih]

theorem lookup_set_other (o : JsObj) (k k' : String) (v : JsVal) (hk : k' ≠ k) :
    (set o k v).lookup k' = o.lookup k' := by
  induction o with
  | nil =>
    have h' : (k' == k) = false := by simpa using hk
    simp [set, List.lookup, h']
  | cons kv rest ih =>
    obtain ⟨k₀, v₀⟩ := kv
    by_cases h : k₀ = k
    · subst h
      have h' : (k' == k₀) = false := by simpa using hk
      simp [set, List.lookup, h']
    · by_cases h2 : k' = k₀
      · subst h2
        simp [set, h, List.lookup]
      · have h' : (k' == k₀) = false := by simpa using h2
        simp [set, h, List.lookup, h', ih]

theorem get_set_self (o : JsObj) (k : String) (v : JsVal) : (set o k v).get k = v := by
  simp [get, lookup_set_self]

theorem get_set_other (o : JsObj) (k k' : String) (v : JsVal) (hk : k' ≠ k) :
    (set o k v).get k' = o.get k' := by
  simp [get, lookup_set_other o k k' v hk]

theorem get_spread_of_absent (o src : JsObj) (k : String) (h : src.has k = false) :
    (spread o src).get k = o.get k := by
  induction src generalizing o with
  | nil => simp [spread]
  | cons kv rest ih =>
    obtain ⟨k₀, v₀⟩ := kv
    simp only [has, List.any_cons, Bool.or_eq_false_iff] at h
    have hne : k ≠ k₀ := by
      intro e
      have := h.1
      simp [e] at this
    have := ih (set o k₀ v₀) (by simpa [has] using h.2)
    simp only [spread, List.foldl_cons] at this ⊢
    rw [this, get_set_other o k₀ k v₀ hne]

theorem has_rest (o : JsObj) (k k' : String) (h : o.has k = false) :
    (rest o k').has k = false := by
  induction o with
  | nil => simp [rest, has]
  | cons kv tl ih =>
    obtain ⟨k₀, v₀⟩ := kv
    simp only [has, List.any_cons, Bool.or_eq_false_iff] at h
    have ih' := ih (by simpa [has] using h.2)
    by_cases hk : k₀ = k'
    · simpa [rest, hk, has] using ih'
    · have : (k₀ != k') = true := by simpa using hk
      simp only [rest, List.filter_cons, this, if_true, has, List.any_cons, Bool.or_eq_false_iff]
      exact ⟨h.1, by simpa [rest, has] using ih'⟩

end JsObj

/-! ## Run lemmas -/

namespace CryptoAnalyzer

/-- The value `performSentimentAnalysis` resolves to when the model loads, the
results are an array, every document is analyzed and the price lookup answers. -/
theorem performSentimentAnalysis_ok (svc : Services) (envelope : JsObj) (predictor : Predictor)
    (docs : List JsVal) (analyzed : List AnalyzedDocument) (price : JsVal)
    (hinit : svc.init = .ok predictor)
    (hres : envelope.get "results" = .arr docs)
    (hmap : (Run.mapArr (analyzeResult predictor (envelope.rest "results")) docs).outcome
      = .ok analyzed)
    (hprice : svc.getCryptoPrice ((envelope.rest "results").get "coin") = .ok price) :
    (performSentimentAnalysis svc envelope).outcome =
      .ok (some (assemble (envelope.rest "results") (.arr docs)
        (averageOf analyzed docs.length) (getPrediction (averageOf analyzed docs.length))
        price svc.now)) := by
  simp [performSentimentAnalysis, Run.tryCatch, Run.andThen, setupSentiment, Run.call,
    hinit, hres, hmap, hprice, Run.ret]

/-- Every batch `performSentimentAnalysis` resolves to was assembled on the
success path. -/
theorem performSentimentAnalysis_some (svc : Services) (envelope b : JsObj)
    (h : (performSentimentAnalysis svc envelope).outcome = .ok (some b)) :
    ∃ predictor docs analyzed price,
      svc.init = .ok predictor ∧ envelope.get "results" = .arr docs ∧
      (Run.mapArr (analyzeResult predictor (envelope.rest "results")) docs).outcome
        = .ok analyzed ∧
      svc.getCryptoPrice ((envelope.rest "results").get "coin") = .ok price ∧
      b = assemble (envelope.rest "results") (.arr docs)
        (averageOf analyzed docs.length) (getPrediction (averageOf analyzed docs.length))
        price svc.now := by
  cases hinit : svc.init with
  | error e =>
    simp [performSentimentAnalysis, Run.tryCatch, Run.andThen, setupSentiment, Run.call,
      hinit, Run.ret, Run.emit] at h
  | ok predictor =>
    cases hres : envelope.get "results" with
    | arr docs =>
      cases hmap : (Run.mapArr (analyzeResult predictor (envelope.rest "results")) docs).outcome with
      | error e =>
        simp [performSentimentAnalysis, Run.tryCatch, Run.andThen, setupSentiment, Run.call,
          hinit, hres, hmap, Run.ret, Run.emit] at h
      | ok analyzed =>
        cases hprice : svc.getCryptoPrice ((envelope.rest "results").get "coin") with
        | error e =>
          simp [performSentimentAnalysis, Run.tryCatch, Run.andThen, setupSentiment, Run.call,
            hinit, hres, hmap, hprice, Run.ret, Run.emit] at h
        | ok price =>
          refine ⟨predictor, docs, analyzed, price, rfl, rfl, hmap, rfl, ?_⟩
          have := performSentimentAnalysis_ok svc envelope predictor docs analyzed price
            hinit hres hmap hprice
          rw [this] at h
          simpa using h.symm
    | _ =>
      simp [performSentimentAnalysis, Run.tryCatch, Run.andThen, setupSentiment, Run.call,
        hinit, hres, Run.ret, Run.emit, Run.throw] at h

/-- The run of `performSentimentAnalysis` when analyzing some document throws. -/
theorem performSentimentAnalysis_map_throws (svc : Services) (envelope : JsObj)
    (predictor : Predictor) (docs : List JsVal) (e : JsErr)
    (hinit : svc.init = .ok predictor)
    (hres : envelope.get "results" = .arr docs)
    (hmap : (Run.mapArr (analyzeResult predictor (envelope.rest "results")) docs).outcome
      = .error e) :
    performSentimentAnalysis svc envelope =
      ⟨[.setupSentiment] ++
          (Run.mapArr (analyzeResult predictor (envelope.rest "results")) docs).trace ++
          [.consoleError "failed predicting" e], .ok none⟩ := by
  simp [performSentimentAnalysis, Run.tryCatch, Run.andThen, setupSentiment, Run.call,
    hinit, hres, hmap, Run.ret, Run.emit]

/-- The run of `performSentimentAnalysis` when the price lookup throws. -/
theorem performSentimentAnalysis_price_throws (svc : Services) (envelope : JsObj)
    (predictor : Predictor) (docs : List JsVal) (analyzed : List AnalyzedDocument) (e : JsErr)
    (hinit : svc.init = .ok predictor)
    (hres : envelope.get "results" = .arr docs)
    (hmap : (Run.mapArr (analyzeResult predictor (envelope.rest "results")) docs).outcome
      = .ok analyzed)
    (hprice : svc.getCryptoPrice ((envelope.rest "results").get "coin") = .error e) :
    performSentimentAnalysis svc envelope =
      ⟨[.setupSentiment] ++
          (Run.mapArr (analyzeResult predictor (envelope.rest "results")) docs).trace ++
          [.getCryptoPrice ((envelope.rest "results").get "coin"),
           .consoleError "failed predicting" e], .ok none⟩ := by
  simp [performSentimentAnalysis, Run.tryCatch, Run.andThen, setupSentiment, Run.call,
    hinit, hres, hmap, hprice, Run.ret, Run.emit]

theorem analyzeResult_of_scoreOf_some (predictor : Predictor) (batch : JsObj) (doc : JsVal)
    (a : Analysis) (h : scoreOf predictor doc = some a) :
    ∃ text, (analyzeResult predictor batch doc).outcome
      = .ok { carried := batch, rawSource := text, analysis := a } := by
  unfold scoreOf at h
  cases ht : doc.getProp "text" with
  | error m => simp [ht] at h
  | ok text =>
    cases hp : predictor.predict text with
    | error e => simp [ht, hp] at h
    | ok a' =>
      simp [ht, hp] at h
      subst h
      exact ⟨text, by simp [analyzeResult, Run.andThen, Run.ofGet, Run.call, Run.ret, ht, hp]⟩

theorem analyzeResult_of_scoreOf_none (predictor : Predictor) (batch : JsObj) (doc : JsVal)
    (h : scoreOf predictor doc = none) :
    ∃ e, (analyzeResult predictor batch doc).outcome = .error e := by
  unfold scoreOf at h
  cases ht : doc.getProp "text" with
  | error m =>
    exact ⟨.typeError m, by simp [analyzeResult, Run.andThen, Run.ofGet, Run.throw, ht]⟩
  | ok text =>
    cases hp : predictor.predict text with
    | error e =>
      exact ⟨e, by simp [analyzeResult, Run.andThen, Run.ofGet, Run.call, Run.ret, ht, hp]⟩
    | ok a' => simp [ht, hp] at h

theorem mapArr_analyzeResult_ok (predictor : Predictor) (batch : JsObj)
    (docs : List JsVal) (analyses : List Analysis)
    (h : docs.map (scoreOf predictor) = analyses.map some) :
    ∃ analyzed, (Run.mapArr (analyzeResult predictor batch) docs).outcome = .ok analyzed ∧
      analyzed.map (fun d => d.analysis) = analyses := by
  induction docs generalizing analyses with
  | nil =>
    cases analyses with
    | nil => exact ⟨[], by simp [Run.mapArr, Run.ret]⟩
    | cons a rest => simp at h
  | cons d ds ih =>
    cases analyses with
    | nil => simp at h
    | cons a rest =>
      simp only [List.map_cons, List.cons.injEq] at h
      obtain ⟨text, ht⟩ := analyzeResult_of_scoreOf_some predictor batch d a h.1
      obtain ⟨analyzed, hm, ha⟩ := ih rest h.2
      refine ⟨{ carried := batch, rawSource := text, analysis := a } :: analyzed, ?_, ?_⟩
      · simp [Run.mapArr, Run.andThen, Run.ret, ht, hm]
      · simp [ha]

theorem mapArr_analyzeResult_fails (predictor : Predictor) (batch : JsObj)
    (docs : List JsVal) (h : ∃ doc ∈ docs, scoreOf predictor doc = none) :
    ∃ e, (Run.mapArr (analyzeResult predictor batch) docs).outcome = .error e := by
  induction docs with
  | nil => simp at h
  | cons d ds ih =>
    cases hd : (analyzeResult predictor batch d).outcome with
    | error e => exact ⟨e, by simp [Run.mapArr, Run.andThen, hd]⟩
    | ok y =>
      obtain ⟨doc, hmem, hnone⟩ := h
      rcases List.mem_cons.mp hmem with rfl | hmem
      · obtain ⟨e, he⟩ := analyzeResult_of_scoreOf_none predictor batch doc hnone
        simp [he] at hd
      · obtain ⟨e', he'⟩ := ih ⟨doc, hmem, hnone⟩
        exact ⟨e', by simp [Run.mapArr, Run.andThen, hd, he']⟩

theorem averageOf_eq (analyzed : List AnalyzedDocument) (n : Nat) :
    averageOf analyzed n = meanOf (analyzed.map (fun d => d.analysis.score)) n := by
  simp [averageOf, meanOf, List.foldl_map]

end CryptoAnalyzer

/-! ## Trace lemmas -/

namespace Run

variable {α β : Type}

theorem mem_andThen (x : Run α) (f : α → Run β) (ev : Event)
    (h : ev ∈ (andThen x f).trace) :
    ev ∈ x.trace ∨ ∃ a, x.outcome = .ok a ∧ ev ∈ (f a).trace := by
  unfold andThen at h
  cases hx : x.outcome with
  | error e =>
    rw [hx] at h
    exact Or.inl h
  | ok a =>
    rw [hx] at h
    rcases List.mem_append.mp h with h | h
    · exact Or.inl h
    · exact Or.inr ⟨a, rfl, h⟩

theorem mem_tryCatch (body : Run α) (handler : JsErr → Run α) (ev : Event)
    (h : ev ∈ (tryCatch body handler).trace) :
    ev ∈ body.trace ∨ ∃ e, body.outcome = .error e ∧ ev ∈ (handler e).trace := by
  unfold tryCatch at h
  cases hx : body.outcome with
  | ok a =>
    rw [hx] at h
    exact Or.inl h
  | error e =>
    rw [hx] at h
    rcases List.mem_append.mp h with h | h
    · exact Or.inl h
    · exact Or.inr ⟨e, rfl, h⟩

end Run

namespace CryptoAnalyzer

theorem mem_analyzeResult_trace (predictor : Predictor) (batch : JsObj) (doc : JsVal)
    (ev : Event) (h : ev ∈ (analyzeResult predictor batch doc).trace) :
    ∃ t, ev = .predict t := by
  unfold analyzeResult at h
  rcases Run.mem_andThen _ _ _ h with h | ⟨text, _, h⟩
  · cases hg : doc.getProp "text" <;> simp [hg, Run.ofGet, Run.ret, Run.throw] at h
  · rcases Run.mem_andThen _ _ _ h with h | ⟨a, _, h⟩
    · exact ⟨text, by simpa [Run.call] using h⟩
    · simp [Run.ret] at h

theorem mem_mapArr_trace (predictor : Predictor) (batch : JsObj) (docs : List JsVal)
    (ev : Event) (h : ev ∈ (Run.mapArr (analyzeResult predictor batch) docs).trace) :
    ∃ t, ev = .predict t := by
  induction docs with
  | nil => simp [Run.mapArr, Run.ret] at h
  | cons d ds ih =>
    unfold Run.mapArr at h
    rcases Run.mem_andThen _ _ _ h with h | ⟨y, _, h⟩
    · exact mem_analyzeResult_trace predictor batch d ev h
    · rcases Run.mem_andThen _ _ _ h with h | ⟨ys, _, h⟩
      · exact ih h
      · simp [Run.ret] at h

/-- The only calls `performSentimentAnalysis` makes. -/
theorem mem_performSentimentAnalysis_trace (svc : Services) (envelope : JsObj) (ev : Event)
    (h : ev ∈ (performSentimentAnalysis svc envelope).trace) :
    ev = .setupSentiment ∨ (∃ t, ev = .predict t) ∨
      ev = .getCryptoPrice ((envelope.rest "results").get "coin") ∨
      ∃ e, ev = .consoleError "failed predicting" e := by
  unfold performSentimentAnalysis at h
  rcases Run.mem_tryCatch _ _ _ h with h | ⟨e, _, h⟩
  · rcases Run.mem_andThen _ _ _ h with h | ⟨predictor, _, h⟩
    · exact Or.inl (by simpa [setupSentiment, Run.call] using h)
    · cases hres : envelope.get "results" with
      | arr docs =>
        simp only [hres] at h
        rcases Run.mem_andThen _ _ _ h with h | ⟨analyzed, _, h⟩
        · exact Or.inr (Or.inl (mem_mapArr_trace _ _ _ _ h))
        · rcases Run.mem_andThen _ _ _ h with h | ⟨p, _, h⟩
          · exact Or.inr (Or.inr (Or.inl (by simpa [Run.call] using h)))
          · simp [Run.ret] at h
      | _ => simp [hres, Run.throw] at h
  · rcases Run.mem_andThen _ _ _ h with h | ⟨_, _, h⟩
    · exact Or.inr (Or.inr (Or.inr ⟨e, by simpa [Run.emit] using h⟩))
    · simp [Run.ret] at h

/-- The envelope `getTweets` resolves to has exactly the fields `source`,
`results` and `meta`. -/
theorem getTweets_envelope_shape (self : TwitterManager) (consts : Constants)
    (crypto : Option TrackedCrypto) (limit : Option Nat) (env : JsObj)
    (h : (getTweets self consts crypto limit).outcome = .ok (some env)) :
    ∃ tweets meta, env =
      [("source", .str consts.TWITTER), ("results", .arr tweets), ("meta", .obj meta)] := by
  unfold getTweets at h
  cases crypto with
  | none => simp [Run.throw] at h
  | some c =>
    simp only at h
    cases hget : self.get c.acronym (limit.getD 100) with
    | error e => simp [Run.andThen, Run.call, hget] at h
    | ok response =>
      cases herr : response.errors with
      | some errors => simp [Run.andThen, Run.call, hget, herr, Run.emit, Run.ret] at h
      | none =>
        simp [Run.andThen, Run.call, hget, herr, Run.ret] at h
        exact ⟨_, _, h.symm⟩

theorem mem_getTweets_trace (self : TwitterManager) (consts : Constants)
    (crypto : Option TrackedCrypto) (limit : Option Nat) (ev : Event)
    (h : ev ∈ (getTweets self consts crypto limit).trace) :
    (∃ q n, ev = .clientGet q n) ∨ ∃ l v, ev = .consoleErrorValue l v := by
  unfold getTweets at h
  cases crypto with
  | none => simp [Run.throw] at h
  | some c =>
    simp only at h
    rcases Run.mem_andThen _ _ _ h with h | ⟨response, _, h⟩
    · exact Or.inl ⟨_, _, by simpa [Run.call] using h⟩
    · cases herr : response.errors with
      | some errors =>
        simp only [herr] at h
        rcases Run.mem_andThen _ _ _ h with h | ⟨_, _, h⟩
        · exact Or.inr ⟨_, _, by simpa [Run.emit] using h⟩
        · simp [Run.ret] at h
      | none => simp [herr, Run.ret] at h

end CryptoAnalyzer

/-! ## The assembled batch -/

namespace CryptoAnalyzer

theorem assemble_state (batch : JsObj) (results : JsVal) (avg : JsNum) (pred : String)
    (price : JsVal) (ts : String) :
    (assemble batch results avg pred price ts).get "state" = .str "VIRGIN" := by
  unfold assemble
  rw [JsObj.get_set_other _ "results" "state" _ (by decide), JsObj.get_set_self]

theorem assemble_results (batch : JsObj) (results : JsVal) (avg : JsNum) (pred : String)
    (price : JsVal) (ts : String) :
    (assemble batch results avg pred price ts).get "results" = results := by
  unfold assemble
  rw [JsObj.get_set_self]

theorem assemble_carried (batch : JsObj) (results : JsVal) (avg : JsNum) (pred : String)
    (price : JsVal) (ts : String) (k : String)
    (h1 : k ≠ "summary") (h2 : k ≠ "state") (h3 : k ≠ "results") (h : batch.has k = false) :
    (assemble batch results avg pred price ts).get k = .undefined := by
  unfold assemble
  rw [JsObj.get_set_other _ "results" k _ h3, JsObj.get_set_other _ "state" k _ h2,
    JsObj.get_spread_of_absent _ _ _ h]
  have : (k == "summary") = false := by simpa using h1
  simp [JsObj.get, List.lookup, this]

theorem assemble_summary (batch : JsObj) (results : JsVal) (avg : JsNum) (pred : String)
    (price : JsVal) (ts : String) (h : batch.has "summary" = false) :
    (assemble batch results avg pred price ts).get "summary" =
      .obj [ ("source", batch.get "source"), ("coin", batch.get "coin"),
             ("averageScore", .num avg), ("prediction", .str pred),
             ("batchTimePrice", price), ("timestamp", .str ts) ] := by
  unfold assemble
  rw [JsObj.get_set_other _ "results" "summary" _ (by decide),
    JsObj.get_set_other _ "state" "summary" _ (by decide),
    JsObj.get_spread_of_absent _ _ _ h]
  simp [JsObj.get, List.lookup]

theorem summary_of_scored (svc : Services) (envelope : JsObj)
    (predictor : Predictor) (docs : List JsVal) (analyses : List Analysis) (price : JsVal)
    (hinit : svc.init = .ok predictor)
    (hres : envelope.get "results" = .arr docs)
    (hscore : docs.map (scoreOf predictor) = analyses.map some)
    (hprice : svc.getCryptoPrice ((envelope.rest "results").get "coin") = .ok price)
    (hsum : envelope.has "summary" = false) :
    ∃ b, (performSentimentAnalysis svc envelope).outcome = .ok (some b) ∧
      summaryField b "averageScore"
        = .ok (.num (meanOf (analyses.map (fun a => a.score)) docs.length)) ∧
      summaryField b "prediction"
        = .ok (.str (getPrediction (meanOf (analyses.map (fun a => a.score)) docs.length))) := by
  obtain ⟨analyzed, hmap, han⟩ :=
    mapArr_analyzeResult_ok predictor (envelope.rest "results") docs analyses hscore
  refine ⟨_, performSentimentAnalysis_ok svc envelope predictor docs analyzed price
    hinit hres hmap hprice, ?_, ?_⟩
  · rw [summaryField, assemble_summary _ _ _ _ _ _ (JsObj.has_rest _ _ _ hsum),
      averageOf_eq, ← han]
    simp [JsVal.getProp, JsObj.get, List.lookup, List.map_map, Function.comp_def]
  · rw [summaryField, assemble_summary _ _ _ _ _ _ (JsObj.has_rest _ _ _ hsum),
      averageOf_eq, ← han]
    simp [JsVal.getProp, JsObj.get, List.lookup, List.map_map, Function.comp_def]

end CryptoAnalyzer

/-! ## Claims -/

namespace CryptoAnalyzer

/-- C1 (counterexample): on the score `NaN` both comparisons of `getPrediction` are
false, so the result is 'POSITIVE' although `NaN >= 0.75` is false: 'POSITIVE'
is not returned exactly when `s >= 0.75`. -/
theorem getPrediction_nan_breaks_threshold_rule :
    getPrediction .nan = "POSITIVE" ∧
      ¬ (getPrediction .nan = "POSITIVE" ↔ JsNum.ge .nan (.fin 0.75) = true) := by
  simp [getPrediction, JsNum.lt, JsNum.ge, JsNum.le]

/-- C1 (amended): for every score `s` other than `NaN`, `getPrediction s` is
'NEGATIVE' exactly when `s < 0.25`, 'NEUTRAL' exactly when `0.25 <= s < 0.75` and
'POSITIVE' exactly when `s >= 0.75`; `getPrediction 0.25` is 'NEUTRAL' and
`getPrediction 0.75` is 'POSITIVE'. The result is a function of `s` alone. -/
theorem getPrediction_thresholds (s : JsNum) (h : s ≠ .nan) :
    (getPrediction s = "NEGATIVE" ↔ s.lt (.fin 0.25) = true) ∧
    (getPrediction s = "NEUTRAL" ↔
      (JsNum.le (.fin 0.25) s = true ∧ s.lt (.fin 0.75) = true)) ∧
    (getPrediction s = "POSITIVE" ↔ s.ge (.fin 0.75) = true) ∧
    getPrediction (.fin 0.25) = "NEUTRAL" ∧
    getPrediction (.fin 0.75) = "POSITIVE" := by
  have b1 : getPrediction (.fin 0.25) = "NEUTRAL" := by
    simp [getPrediction, JsNum.lt]; norm_num
  have b2 : getPrediction (.fin 0.75) = "POSITIVE" := by
    simp [getPrediction, JsNum.lt]; norm_num
  refine ⟨?_, ?_, ?_, b1, b2⟩
  · cases s with
    | nan => exact absurd rfl h
    | negInf => simp [getPrediction, JsNum.lt]
    | posInf => simp [getPrediction, JsNum.lt]
    | fin q =>
      by_cases h1 : q < 0.25
      · simp [getPrediction, JsNum.lt, h1]
      · by_cases h2 : q < 0.75 <;> simp [getPrediction, JsNum.lt, h1, h2]
  · cases s with
    | nan => exact absurd rfl h
    | negInf => simp [getPrediction, JsNum.lt, JsNum.le]
    | posInf => simp [getPrediction, JsNum.lt, JsNum.le]
    | fin q =>
      by_cases h1 : q < 0.25
      · simp [getPrediction, JsNum.lt, JsNum.le, h1]
      · by_cases h2 : q < 0.75
        · simp [getPrediction, JsNum.lt, JsNum.le, h1, h2, le_of_not_lt h1]
        · simp [getPrediction, JsNum.lt, JsNum.le, h1, h2]
  · cases s with
    | nan => exact absurd rfl h
    | negInf => simp [getPrediction, JsNum.lt, JsNum.le, JsNum.ge]
    | posInf => simp [getPrediction, JsNum.lt, JsNum.le, JsNum.ge]
    | fin q =>
      by_cases h1 : q < 0.25
      · have : q < 0.75 := lt_trans h1 (by norm_num)
        simp [getPrediction, JsNum.lt, JsNum.le, JsNum.ge, h1, this]
      · by_cases h2 : q < 0.75
        · simp [getPrediction, JsNum.lt, JsNum.le, JsNum.ge, h1, h2]
        · simp [getPrediction, JsNum.lt, JsNum.le, JsNum.ge, h1, h2, le_of_not_lt h2]

/-- C1 (witness): the amended rule at the score 0.5. -/
theorem getPrediction_thresholds_witness :
    JsNum.fin 0.5 ≠ .nan ∧
    (getPrediction (.fin 0.5) = "NEUTRAL" ↔
      (JsNum.le (.fin 0.25) (.fin 0.5) = true ∧ JsNum.lt (.fin 0.5) (.fin 0.75) = true)) :=
  ⟨by simp, (getPrediction_thresholds (.fin 0.5) (by simp)).2.1⟩

/-- C2: when the model loads, every document of the envelope scores successfully
and the price lookup answers, `performSentimentAnalysis` returns a batch whose
`summary.averageScore` is the sum of the per-document scores divided by the number
of documents, sum and quotient being JavaScript's binary64 `+` and `/`, and whose
`summary.prediction` is `getPrediction` of that average (for an envelope that
carries no `summary` field of its own). -/
theorem performSentimentAnalysis_average (svc : Services) (envelope : JsObj)
    (predictor : Predictor) (docs : List JsVal) (analyses : List Analysis) (price : JsVal)
    (hinit : svc.init = .ok predictor)
    (hres : envelope.get "results" = .arr docs)
    (hscore : docs.map (scoreOf predictor) = analyses.map some)
    (hprice : svc.getCryptoPrice ((envelope.rest "results").get "coin") = .ok price)
    (hsum : envelope.has "summary" = false) :
    ∃ b, (performSentimentAnalysis svc envelope).outcome = .ok (some b) ∧
      summaryField b "averageScore"
        = .ok (.num (meanOf (analyses.map (fun a => a.score)) docs.length)) ∧
      summaryField b "prediction"
        = .ok (.str (getPrediction (meanOf (analyses.map (fun a => a.score)) docs.length))) :=
  summary_of_scored svc envelope predictor docs analyses price hinit hres hscore hprice hsum

/-- C2 (witness): three documents scoring 0.1, 0.5 and 0.9 give the average 0.5 and
the prediction 'NEUTRAL'. -/
theorem performSentimentAnalysis_average_witness :
    ∃ b, (performSentimentAnalysis Sample.svc Sample.envelope).outcome = .ok (some b) ∧
      summaryField b "averageScore" = .ok (.num (.fin 0.5)) ∧
      summaryField b "prediction" = .ok (.str "NEUTRAL") := by
  have h := performSentimentAnalysis_average Sample.svc Sample.envelope Sample.predictor
    [Sample.doc "a", Sample.doc "b", Sample.doc "c"]
    [⟨.round 0.1, none⟩, ⟨.fin 0.5, none⟩, ⟨.round 0.9, none⟩] (.num (.fin 100))
    rfl (by simp [Sample.envelope, JsObj.get, List.lookup])
    (by simp [scoreOf, Sample.doc, Sample.predictor, Sample.predict, JsVal.getProp,
      JsObj.get, List.lookup])
    rfl (by simp [Sample.envelope, JsObj.has])
  have e : meanOf (List.map (fun a => a.score)
      [(⟨.round 0.1, none⟩ : Analysis), ⟨.fin 0.5, none⟩, ⟨.round 0.9, none⟩])
      [Sample.doc "a", Sample.doc "b", Sample.doc "c"].length = .fin 0.5 := by
    decide!
  have p : getPrediction (.fin 0.5) = "NEUTRAL" := by
    simp [getPrediction, JsNum.lt]; norm_num
  rw [e, p] at h
  exact h

end CryptoAnalyzer

namespace CryptoAnalyzer

/-- C3 (code at the failing input): when the envelope's results list is empty (and
the model loads and the price lookup answers), `performSentimentAnalysis` returns a
batch; its `summary.averageScore` is `NaN`, the value of `0/0`, and its
`summary.prediction` is 'POSITIVE', computed from that `NaN`. -/
theorem performSentimentAnalysis_empty_results (svc : Services) (envelope : JsObj)
    (predictor : Predictor) (price : JsVal)
    (hinit : svc.init = .ok predictor)
    (hres : envelope.get "results" = .arr [])
    (hprice : svc.getCryptoPrice ((envelope.rest "results").get "coin") = .ok price)
    (hsum : envelope.has "summary" = false) :
    ∃ b, (performSentimentAnalysis svc envelope).outcome = .ok (some b) ∧
      summaryField b "averageScore" = .ok (.num .nan) ∧
      summaryField b "prediction" = .ok (.str "POSITIVE") := by
  have h := summary_of_scored svc envelope predictor [] [] price hinit hres rfl hprice hsum
  have e : meanOf (List.map (fun a => a.score) ([] : List Analysis))
      ([] : List JsVal).length = .nan := by
    simp [meanOf, JsNum.div, JsNum.ofNat]
  have p : getPrediction .nan = "POSITIVE" := by simp [getPrediction, JsNum.lt]
  rw [e, p] at h
  exact h

/-- C3 (witness): the envelope without documents. -/
theorem performSentimentAnalysis_empty_results_witness :
    Sample.emptyEnvelope.get "results" = .arr [] ∧
    ∃ b, (performSentimentAnalysis Sample.svc Sample.emptyEnvelope).outcome = .ok (some b) ∧
      summaryField b "averageScore" = .ok (.num .nan) ∧
      summaryField b "prediction" = .ok (.str "POSITIVE") :=
  ⟨by simp [Sample.emptyEnvelope, JsObj.get, List.lookup],
   performSentimentAnalysis_empty_results Sample.svc Sample.emptyEnvelope Sample.predictor
    (.num (.fin 100)) rfl (by simp [Sample.emptyEnvelope, JsObj.get, List.lookup]) rfl
    (by simp [Sample.emptyEnvelope, JsObj.has])⟩

/-- C4: every batch `performSentimentAnalysis` returns has `state` equal to
'VIRGIN', whatever the envelope carries. -/
theorem performSentimentAnalysis_state_virgin (svc : Services) (envelope b : JsObj)
    (h : (performSentimentAnalysis svc envelope).outcome = .ok (some b)) :
    b.get "state" = .str "VIRGIN" := by
  obtain ⟨_, _, _, _, _, _, _, _, rfl⟩ := performSentimentAnalysis_some svc envelope b h
  exact assemble_state _ _ _ _ _ _

/-- C4 (witness): an envelope carrying `state: 'PROCESSED'` yields a batch whose
state is 'VIRGIN'. -/
theorem performSentimentAnalysis_state_virgin_witness :
    Sample.statefulEnvelope.get "state" = .str "PROCESSED" ∧
    ∃ b, (performSentimentAnalysis Sample.svc Sample.statefulEnvelope).outcome = .ok (some b) ∧
      b.get "state" = .str "VIRGIN" := by
  refine ⟨by simp [Sample.statefulEnvelope, JsObj.get, List.lookup], ?_⟩
  obtain ⟨b, hb, _⟩ := summary_of_scored Sample.svc Sample.statefulEnvelope Sample.predictor
    [Sample.doc "b"] [⟨.fin 0.5, none⟩] (.num (.fin 100)) rfl
    (by simp [Sample.statefulEnvelope, JsObj.get, List.lookup])
    (by simp [scoreOf, Sample.doc, Sample.predictor, Sample.predict, JsVal.getProp,
      JsObj.get, List.lookup])
    rfl (by simp [Sample.statefulEnvelope, JsObj.has])
  exact ⟨b, hb, performSentimentAnalysis_state_virgin Sample.svc Sample.statefulEnvelope b hb⟩

/-- C5 (code at the failing input): the `results` field of every batch
`performSentimentAnalysis` returns is the envelope's own `results` value, the raw
documents, not the analyzed documents built from them. -/
theorem performSentimentAnalysis_results_raw (svc : Services) (envelope b : JsObj)
    (h : (performSentimentAnalysis svc envelope).outcome = .ok (some b)) :
    b.get "results" = envelope.get "results" := by
  obtain ⟨_, _, _, _, _, hres, _, _, rfl⟩ := performSentimentAnalysis_some svc envelope b h
  rw [assemble_results, hres]

/-- C5 (witness): for one raw document with text 'b' the returned `results` is the
list holding that raw document, which differs from the list holding its analyzed
document. -/
theorem performSentimentAnalysis_results_raw_witness :
    ∃ b, (performSentimentAnalysis Sample.svc Sample.singleEnvelope).outcome = .ok (some b) ∧
      b.get "results" = .arr [Sample.doc "b"] ∧
      b.get "results" ≠ .arr [AnalyzedDocument.toJs
        ⟨Sample.singleEnvelope.rest "results", .str "b", ⟨.fin 0.5, none⟩⟩] := by
  obtain ⟨b, hb, _⟩ := summary_of_scored Sample.svc Sample.singleEnvelope Sample.predictor
    [Sample.doc "b"] [⟨.fin 0.5, none⟩] (.num (.fin 100)) rfl
    (by simp [Sample.singleEnvelope, JsObj.get, List.lookup])
    (by simp [scoreOf, Sample.doc, Sample.predictor, Sample.predict, JsVal.getProp,
      JsObj.get, List.lookup])
    rfl (by simp [Sample.singleEnvelope, JsObj.has])
  have hr := performSentimentAnalysis_results_raw Sample.svc Sample.singleEnvelope b hb
  have he : Sample.singleEnvelope.get "results" = .arr [Sample.doc "b"] := by
    simp [Sample.singleEnvelope, JsObj.get, List.lookup]
  refine ⟨b, hb, hr.trans he, ?_⟩
  rw [hr, he]
  simp [Sample.doc, AnalyzedDocument.toJs, Sample.singleEnvelope, JsObj.rest, JsObj.spread,
    JsObj.set, Analysis.toJs]

/-- C6 (counterexample): of two documents the first scores 0.5 and scoring the
second throws; `performSentimentAnalysis` returns no batch. -/
theorem performSentimentAnalysis_unscorable_document_no_batch :
    scoreOf Sample.predictor (Sample.doc "b") = some ⟨.fin 0.5, none⟩ ∧
    scoreOf Sample.predictor (Sample.doc "unscorable") = none ∧
    (performSentimentAnalysis Sample.svc Sample.mixedEnvelope).outcome = .ok none := by
  refine ⟨?_, ?_, ?_⟩
  · simp [scoreOf, Sample.doc, Sample.predictor, Sample.predict, JsVal.getProp, JsObj.get,
      List.lookup]
  · simp [scoreOf, Sample.doc, Sample.predictor, Sample.predict, JsVal.getProp, JsObj.get,
      List.lookup]
  · simp [performSentimentAnalysis, Sample.svc, Sample.mixedEnvelope, JsObj.get, JsObj.rest,
      List.lookup, Run.tryCatch, Run.andThen, setupSentiment, Run.call, Run.mapArr,
      analyzeResult, Run.ofGet, JsVal.getProp, Run.ret, Run.emit, Sample.doc,
      Sample.predictor, Sample.predict]

/-- C6 (amended): if scoring throws for any document of the envelope,
`performSentimentAnalysis` returns no batch, however many other documents score:
the exception is caught, reported as 'failed predicting', and the function
resolves to `undefined`. -/
theorem performSentimentAnalysis_scoring_failure (svc : Services) (envelope : JsObj)
    (predictor : Predictor) (docs : List JsVal)
    (hinit : svc.init = .ok predictor)
    (hres : envelope.get "results" = .arr docs)
    (hfail : ∃ doc ∈ docs, scoreOf predictor doc = none) :
    (performSentimentAnalysis svc envelope).outcome = .ok none ∧
    ∃ e, Event.consoleError "failed predicting" e ∈ (performSentimentAnalysis svc envelope).trace := by
  obtain ⟨e, he⟩ := mapArr_analyzeResult_fails predictor (envelope.rest "results") docs hfail
  rw [performSentimentAnalysis_map_throws svc envelope predictor docs e hinit hres he]
  exact ⟨rfl, e, by simp⟩

/-- C6 (witness): the envelope whose second document cannot be scored. -/
theorem performSentimentAnalysis_scoring_failure_witness :
    (performSentimentAnalysis Sample.svc Sample.mixedEnvelope).outcome = .ok none ∧
    ∃ e, Event.consoleError "failed predicting" e ∈
      (performSentimentAnalysis Sample.svc Sample.mixedEnvelope).trace :=
  performSentimentAnalysis_scoring_failure Sample.svc Sample.mixedEnvelope Sample.predictor
    [Sample.doc "b", Sample.doc "unscorable"] rfl
    (by simp [Sample.mixedEnvelope, JsObj.get, List.lookup])
    ⟨Sample.doc "unscorable", by simp, by
      simp [scoreOf, Sample.doc, Sample.predictor, Sample.predict, JsVal.getProp, JsObj.get,
        List.lookup]⟩

/-- C7 (counterexample): three documents all score, the results are not empty and
the price lookup throws; `performSentimentAnalysis` returns no batch. -/
theorem performSentimentAnalysis_price_failure_no_batch :
    [Sample.doc "a", Sample.doc "b", Sample.doc "c"].map (scoreOf Sample.predictor)
      = [some ⟨.round 0.1, none⟩, some ⟨.fin 0.5, none⟩, some ⟨.round 0.9, none⟩] ∧
    (∀ coin, Sample.svcPriceDown.getCryptoPrice coin
      = .error (.external "price service unavailable")) ∧
    (performSentimentAnalysis Sample.svcPriceDown Sample.envelope).outcome = .ok none := by
  refine ⟨?_, fun _ => rfl, ?_⟩
  · simp [scoreOf, Sample.doc, Sample.predictor, Sample.predict, JsVal.getProp, JsObj.get,
      List.lookup]
  · simp [performSentimentAnalysis, Sample.svcPriceDown, Sample.envelope, JsObj.get, JsObj.rest,
      List.lookup, Run.tryCatch, Run.andThen, setupSentiment, Run.call, Run.mapArr,
      analyzeResult, Run.ofGet, JsVal.getProp, Run.ret, Run.emit, Sample.doc,
      Sample.predictor, Sample.predict]

/-- C7 (amended): if the price lookup throws while every document scores
successfully, `performSentimentAnalysis` returns no batch: the exception is caught,
reported as 'failed predicting', and the function resolves to `undefined`. -/
theorem performSentimentAnalysis_price_failure (svc : Services) (envelope : JsObj)
    (predictor : Predictor) (docs : List JsVal) (analyses : List Analysis) (e : JsErr)
    (hinit : svc.init = .ok predictor)
    (hres : envelope.get "results" = .arr docs)
    (hscore : docs.map (scoreOf predictor) = analyses.map some)
    (hprice : svc.getCryptoPrice ((envelope.rest "results").get "coin") = .error e) :
    (performSentimentAnalysis svc envelope).outcome = .ok none ∧
    Event.consoleError "failed predicting" e ∈ (performSentimentAnalysis svc envelope).trace := by
  obtain ⟨analyzed, hmap, _⟩ :=
    mapArr_analyzeResult_ok predictor (envelope.rest "results") docs analyses hscore
  rw [performSentimentAnalysis_price_throws svc envelope predictor docs analyzed e
    hinit hres hmap hprice]
  exact ⟨rfl, by simp⟩

/-- C7 (witness): three scorable documents and a price lookup that throws. -/
theorem performSentimentAnalysis_price_failure_witness :
    (performSentimentAnalysis Sample.svcPriceDown Sample.envelope).outcome = .ok none ∧
    Event.consoleError "failed predicting" (.external "price service unavailable") ∈
      (performSentimentAnalysis Sample.svcPriceDown Sample.envelope).trace :=
  performSentimentAnalysis_price_failure Sample.svcPriceDown Sample.envelope Sample.predictor
    [Sample.doc "a", Sample.doc "b", Sample.doc "c"]
    [⟨.round 0.1, none⟩, ⟨.fin 0.5, none⟩, ⟨.round 0.9, none⟩] (.external "price service unavailable")
    rfl (by simp [Sample.envelope, JsObj.get, List.lookup])
    (by simp [scoreOf, Sample.doc, Sample.predictor, Sample.predict, JsVal.getProp,
      JsObj.get, List.lookup])
    rfl

end CryptoAnalyzer

namespace CryptoAnalyzer

theorem lookupManager_unlisted (consts : Constants) (managers : Managers) (key : String)
    (h : key ∉ [consts.TWITTER, consts.REDDIT, consts.BING, consts.GNEWS]) :
    lookupManager (getServiceManager consts managers) key =
      if key ∈ objectPrototypeKeys then .inherited key else .undefined := by
  simp only [List.mem_cons, List.mem_singleton, not_or, List.not_mem_nil, or_false] at h
  obtain ⟨h1, h2, h3, h4⟩ := h
  have e1 : (key == consts.TWITTER) = false := by simpa using h1
  have e2 : (key == consts.REDDIT) = false := by simpa using h2
  have e3 : (key == consts.BING) = false := by simpa using h3
  have e4 : (key == consts.GNEWS) = false := by simpa using h4
  simp [lookupManager, getServiceManager, List.lookup, e1, e2, e3, e4]

/-- The batch handed on when the Twitter adapter feeds `performSentimentAnalysis`. -/
theorem twitter_batch_has_no_coin (consts : Constants) (tweets : List JsVal) (meta : JsObj)
    (svc : Services) (b : JsObj)
    (h : (performSentimentAnalysis svc
      [("source", .str consts.TWITTER), ("results", .arr tweets), ("meta", .obj meta)]).outcome
        = .ok (some b)) :
    b.get "coin" = .undefined ∧ summaryField b "coin" = .ok .undefined := by
  obtain ⟨_, _, _, _, _, _, _, _, rfl⟩ := performSentimentAnalysis_some svc _ b h
  constructor
  · exact assemble_carried _ _ _ _ _ _ "coin" (by decide) (by decide) (by decide)
      (by simp [JsObj.rest, JsObj.has])
  · rw [summaryField, assemble_summary _ _ _ _ _ _ (by simp [JsObj.rest, JsObj.has])]
    simp [JsVal.getProp, JsObj.get, JsObj.rest, List.lookup]

/-- C8 (code at the failing input): for every tracked crypto `c` passed to
`fetchServiceData` with the Twitter adapter, every price lookup made is keyed by
`undefined`, and every batch handed to persistence is either `undefined` or an
object whose `coin` and `summary.coin` are `undefined`; none of them is `c`. -/
theorem fetchServiceData_twitter_coin_undefined (svc : Services) (self : TwitterManager)
    (consts : Constants) (c : TrackedCrypto) :
    (∀ k, Event.getCryptoPrice k ∈
        (fetchServiceData svc (some c) (.manager (self.toServiceManager consts))).trace →
      k = .undefined) ∧
    (∀ v, Event.insertNewBatch v ∈
        (fetchServiceData svc (some c) (.manager (self.toServiceManager consts))).trace →
      v = .undefined ∨
        ∃ b : JsObj, v = .obj b ∧ b.get "coin" = .undefined ∧ summaryField b "coin" = .ok .undefined) ∧
    c.toJs ≠ .undefined := by
  have key : ∀ ev ∈ (fetchServiceData svc (some c)
        (.manager (self.toServiceManager consts))).trace,
      (∀ k, ev = Event.getCryptoPrice k → k = .undefined) ∧
      (∀ v, ev = Event.insertNewBatch v → v = .undefined ∨
        ∃ b : JsObj, v = .obj b ∧ b.get "coin" = .undefined ∧
          summaryField b "coin" = .ok .undefined) := by
    intro ev h
    unfold fetchServiceData at h
    rcases Run.mem_andThen _ _ _ h with h | ⟨fetched, hf, h⟩
    · have := mem_getTweets_trace self consts (some c) none ev
        (by simpa [callFetchServiceData, TwitterManager.toServiceManager] using h)
      rcases this with ⟨q, n, rfl⟩ | ⟨l, v, rfl⟩ <;> simp
    · cases fetched with
      | none => simp [Run.throw] at h
      | some env =>
        obtain ⟨tweets, meta, rfl⟩ := getTweets_envelope_shape self consts (some c) none env
          (by simpa [callFetchServiceData, TwitterManager.toServiceManager] using hf)
        simp only at h
        rcases Run.mem_andThen _ _ _ h with h | ⟨ab, hab, h⟩
        · rcases mem_performSentimentAnalysis_trace _ _ _ h with rfl | ⟨t, rfl⟩ | rfl | ⟨e, rfl⟩
          · simp
          · simp
          · simp [JsObj.rest, JsObj.get, List.lookup]
          · simp
        · rcases Run.mem_tryCatch _ _ _ h with h | ⟨e, _, h⟩
          · rcases Run.mem_andThen _ _ _ h with h | ⟨_, _, h⟩
            · have hev : ev = .insertNewBatch (optToJs ab) := by simpa [Run.call] using h
              subst hev
              refine ⟨by simp, ?_⟩
              intro v hv
              have hv' : v = optToJs ab := by simpa using hv.symm
              subst hv'
              cases ab with
              | none => exact Or.inl rfl
              | some b =>
                exact Or.inr ⟨b, rfl, twitter_batch_has_no_coin consts tweets meta svc b hab⟩
            · simp [Run.ret] at h
          · have hev : ev = .consoleError "failed inserting batch" e := by
              simpa [Run.emit] using h
            subst hev
            simp
  refine ⟨fun k hk => (key _ hk).1 k rfl, fun v hv => (key _ hv).2 v rfl, ?_⟩
  simp [TrackedCrypto.toJs]

/-- C8 (concrete run): with the Twitter adapter and the crypto Bitcoin the price
lookup is called with `undefined` and the batch handed to persistence has no
`coin`. -/
theorem fetchServiceData_twitter_bitcoin_trace :
    (fetchServiceData Sample.svc (some Sample.bitcoin)
        (.manager (Sample.twitter.toServiceManager Sample.consts))).trace =
      [ .clientGet "BTC" 100, .setupSentiment, .predict (.str "a"), .predict (.str "c"),
        .getCryptoPrice .undefined,
        .insertNewBatch (.obj
          [ ("summary", .obj
              [ ("source", .str "TWITTER"), ("coin", .undefined),
                ("averageScore", .num (.fin 0.5)), ("prediction", .str "NEUTRAL"),
                ("batchTimePrice", .num (.fin 100)),
                ("timestamp", .str "2021-05-01T12:00:00.000Z") ]),
            ("source", .str "TWITTER"),
            ("meta", .obj [("result_count", .num (.fin 2)), ("query", .str "BTC")]),
            ("state", .str "VIRGIN"),
            ("results", .arr [Sample.doc "a", Sample.doc "c"]) ]) ] := by
  have e : averageOf
      [ (⟨[("source", .str "TWITTER"),
            ("meta", .obj [("result_count", .num (.fin 2)), ("query", .str "BTC")])],
          .str "a", ⟨.round 0.1, none⟩⟩ : AnalyzedDocument),
        ⟨[("source", .str "TWITTER"),
            ("meta", .obj [("result_count", .num (.fin 2)), ("query", .str "BTC")])],
          .str "c", ⟨.round 0.9, none⟩⟩ ] 2 = .fin 0.5 := by
    decide!
  have p : getPrediction (.fin 0.5) = "NEUTRAL" := by
    simp [getPrediction, JsNum.lt]; norm_num
  simp [fetchServiceData, callFetchServiceData, TwitterManager.toServiceManager, getTweets,
    Sample.twitter, Sample.bitcoin, Sample.consts, Sample.svc, Sample.predictor,
    Sample.predict, Sample.doc, performSentimentAnalysis, setupSentiment, analyzeResult,
    Run.andThen, Run.call, Run.tryCatch, Run.ret, Run.emit, Run.mapArr, Run.ofGet,
    JsVal.getProp, JsObj.get, JsObj.rest, JsObj.spread, JsObj.set, List.lookup, optToJs,
    assemble, e, p]

end CryptoAnalyzer

/-- C9: when the response of the search carries an `errors` array, `getTweets`
returns no envelope, whatever `data` holds; when it carries none, `getTweets`
returns an envelope whose `source` is `TWITTER` and whose `results` are the
response's tweets in order, the empty list when `data` is absent. -/
theorem getTweets_fails_closed (self : TwitterManager) (consts : Constants)
    (c : TrackedCrypto) (limit : Option Nat) (response : TwitterResponse)
    (hget : self.get c.acronym (limit.getD 100) = .ok response) :
    (response.errors.isSome = true →
      (getTweets self consts (some c) limit).outcome = .ok none) ∧
    (response.errors = none →
      ∃ env, (getTweets self consts (some c) limit).outcome = .ok (some env) ∧
        env.get "source" = .str consts.TWITTER ∧
        env.get "results" = .arr (response.data.getD [])) := by
  constructor
  · intro herr
    obtain ⟨errors, herr⟩ := Option.isSome_iff_exists.mp herr
    simp [getTweets, Run.andThen, Run.call, hget, herr, Run.emit, Run.ret]
  · intro herr
    refine ⟨_, by simp [getTweets, Run.andThen, Run.call, hget, herr, Run.ret]; rfl, ?_, ?_⟩
    · simp [JsObj.get, List.lookup]
    · simp [JsObj.get, List.lookup]

/-- C9 (witness): a response with two tweets and an `errors` array yields no
envelope; the same two tweets without errors are returned in order. -/
theorem getTweets_fails_closed_witness :
    (getTweets Sample.twitterWithErrors Sample.consts (some Sample.bitcoin) none).outcome
      = .ok none ∧
    ∃ env, (getTweets Sample.twitter Sample.consts (some Sample.bitcoin) none).outcome
        = .ok (some env) ∧
      env.get "source" = .str "TWITTER" ∧
      env.get "results" = .arr [Sample.doc "a", Sample.doc "c"] :=
  ⟨(getTweets_fails_closed Sample.twitterWithErrors Sample.consts Sample.bitcoin none
      ⟨some [Sample.doc "a", Sample.doc "c"], none,
        some [.obj [("title", .str "Not Found Error")]]⟩ rfl).1 rfl,
   (getTweets_fails_closed Sample.twitter Sample.consts Sample.bitcoin none
      ⟨some [Sample.doc "a", Sample.doc "c"], some [("result_count", .num (.fin 2))], none⟩
      rfl).2 rfl⟩

namespace CryptoAnalyzer

/-- A selector that is neither a key of the table nor a member of
`Object.prototype` makes the entry point report 'no service specified' right
after the catalog is read; nothing else is called. -/
theorem main_unknown_selector (consts : Constants) (managers : Managers) (svc : Services)
    (args : Args) (keywords : List TrackedCrypto)
    (hload : svc.readKeywords = .ok keywords)
    (h : selectorKey args.service ∉ [consts.TWITTER, consts.REDDIT, consts.BING, consts.GNEWS])
    (hproto : selectorKey args.service ∉ objectPrototypeKeys) :
    main consts managers svc args =
      ⟨[.readKeywords, .consoleError "" (.error "no service specified")], .ok ()⟩ := by
  simp [main, lookupManager_unlisted consts managers _ h, hproto, Run.tryCatch, Run.andThen,
    Run.call, hload, Run.throw, Run.emit]

/-- C10 (code at the failing input): a selector that is not a key of the table but
names a member of `Object.prototype` passes the guard of the entry point: no
'no service specified' error is raised; the run ends in an unhandled `TypeError`
raised when `fetchServiceData` calls the missing adapter method. -/
theorem main_inherited_selector (consts : Constants) (managers : Managers) (svc : Services)
    (args : Args) (keywords : List TrackedCrypto)
    (hload : svc.readKeywords = .ok keywords)
    (h : selectorKey args.service ∉ [consts.TWITTER, consts.REDDIT, consts.BING, consts.GNEWS])
    (hproto : selectorKey args.service ∈ objectPrototypeKeys) :
    main consts managers svc args =
      ⟨[.readKeywords,
        .unhandledRejection (.typeError "serviceManager.fetchServiceData is not a function")],
       .ok ()⟩ := by
  simp [main, lookupManager_unlisted consts managers _ h, hproto, Run.tryCatch, Run.andThen,
    Run.call, hload, Run.spawn, fetchServiceData, callFetchServiceData, Run.throw]

/-- C10 (witness): the selector 'toString'. -/
theorem main_inherited_selector_witness :
    main Sample.consts Sample.managers Sample.svc ⟨some "toString", .fin 0⟩ =
      ⟨[.readKeywords,
        .unhandledRejection (.typeError "serviceManager.fetchServiceData is not a function")],
       .ok ()⟩ :=
  main_inherited_selector Sample.consts Sample.managers Sample.svc ⟨some "toString", .fin 0⟩
    [⟨"Bitcoin", "BTC"⟩, ⟨"Ethereum", "ETH"⟩] rfl
    (by simp [selectorKey, Sample.consts]) (by simp [selectorKey, objectPrototypeKeys])

end CryptoAnalyzer

namespace PublicSearch

theorem lookupManager_unlisted_public (consts : Constants) (managers : Managers) (key : String)
    (h : key ∉ [consts.TWITTER, consts.REDDIT, consts.BING]) :
    lookupManager (getServiceManager consts managers) key =
      if key ∈ objectPrototypeKeys then .inherited key else .undefined := by
  simp only [List.mem_cons, List.mem_singleton, not_or, List.not_mem_nil, or_false] at h
  obtain ⟨h1, h2, h3⟩ := h
  have e1 : (key == consts.TWITTER) = false := by simpa using h1
  have e2 : (key == consts.REDDIT) = false := by simpa using h2
  have e3 : (key == consts.BING) = false := by simpa using h3
  simp [lookupManager, getServiceManager, List.lookup, e1, e2, e3]

/-- The entry point of `src/index.js` on a selector that is neither a key of its
table nor a member of `Object.prototype`: 'no service specified' is reported and
nothing is called. -/
theorem public_main_unknown_selector (consts : Constants) (managers : Managers)
    (svc : Services) (args : Args)
    (h : selectorKey args.service ∉ [consts.TWITTER, consts.REDDIT, consts.BING])
    (hproto : selectorKey args.service ∉ objectPrototypeKeys) :
    main consts managers svc args =
      ⟨[.consoleError "" (.error "no service specified")], .ok ()⟩ := by
  simp [main, lookupManager_unlisted_public consts managers _ h, hproto, Run.tryCatch,
    Run.throw, Run.emit]

/-- The entry point of `src/index.js` on a selector naming a member of
`Object.prototype`: the guard passes and the run ends in an unhandled `TypeError`. -/
theorem public_main_inherited_selector (consts : Constants) (managers : Managers)
    (svc : Services) (args : Args) (keywords : List TrackedCrypto)
    (hload : svc.readKeywords = .ok keywords)
    (hquery : args.query.length ≠ 0)
    (h : selectorKey args.service ∉ [consts.TWITTER, consts.REDDIT, consts.BING])
    (hproto : selectorKey args.service ∈ objectPrototypeKeys) :
    main consts managers svc args =
      ⟨[.readKeywords,
        .unhandledRejection (.typeError "serviceManager.fetchPublicData is not a function")],
       .ok ()⟩ := by
  simp [main, lookupManager_unlisted_public consts managers _ h, hproto, Run.tryCatch,
    Run.andThen, Run.call, hload, hquery, Run.spawn, fetchPublicData, callFetchPublicData,
    Run.throw, Run.ret]

end PublicSearch
